import Mathlib

/-!
Verification of the terminalist task-reconciliation core against its
natural-language specification.

The Rust sources under `src/sync/tasks.rs`, `src/ui/app_component.rs` and
`src/ui/core/error_sanitizer.rs` are shallowly embedded below.  The local
store (a relational cache of projects, sections and tasks) becomes an
explicit `Storage` value; every reconciliation operation becomes a pure
function from the storage, the remote backend response and the operation
arguments to an `OpResult` carrying the outcome, the storage after the
call, and the list of remote-backend calls issued.  Remote backends are
opaque collaborators, so a backend response is a parameter (exactly as the
repository's own stub-backend tests treat it).  The interactive lock is
released around every remote call, so each operation also takes a `mid`
function describing what concurrent operations did to the storage while
the lock was released; sequential runs use `id`.
-/

namespace Terminalist

/-- Boolean prefix test on character lists: `isPrefixB p l` holds when `p`
is an initial segment of `l`.  Used to embed the string matching of
`sanitize_user_error` without relying on opaque core string primitives. -/
def isPrefixB : List Char → List Char → Bool
  | [], _ => true
  | _ :: _, [] => false
  | a :: as, b :: bs => a == b && isPrefixB as bs

/-- Boolean substring test on character lists, matching Rust's
`str::contains` for literal needles: some suffix of the haystack starts
with the needle. -/
def listContains : List Char → List Char → Bool
  | [], needle => needle.isEmpty
  | c :: t, needle => isPrefixB needle (c :: t) || listContains t needle

/-- Unicode `White_Space` test, matching Rust's `char::is_whitespace`,
which `str::trim` strips from both ends. -/
def rustIsWhitespace (c : Char) : Bool :=
  c == ' ' || c == '\t' || c == '\n' || c == '\x0b' || c == '\x0c' || c == '\r' ||
  c.val == 0x85 || c.val == 0xA0 || c.val == 0x1680 ||
  (0x2000 ≤ c.val && c.val ≤ 0x200A) ||
  c.val == 0x2028 || c.val == 0x2029 || c.val == 0x202F || c.val == 0x205F ||
  c.val == 0x3000

/-- Embedding of Rust's `str::trim`: drop Unicode whitespace from both
ends of the string. -/
def rustTrim (s : String) : String :=
  String.mk (((s.data.dropWhile rustIsWhitespace).reverse.dropWhile rustIsWhitespace).reverse)

/-- Substring containment lifted to `String`. -/
def strContains (hay needle : String) : Bool :=
  listContains hay.data needle.data

/-- A cached project row (`projects` table): local uuid, owning backend
instance, backend-assigned remote id, and the flags the reconciliation
core reads.  Local uuids are modelled as naturals. -/
structure Project where
  uuid : Nat
  backend_uuid : Nat
  remote_id : String
  name : String
  is_favorite : Bool
  is_inbox_project : Bool
  order_index : Int
  parent_uuid : Option Nat
deriving DecidableEq, Repr

/-- A cached section row (`sections` table); only the key columns the
task operations read are modelled. -/
structure SectionRow where
  uuid : Nat
  backend_uuid : Nat
  remote_id : String
  project_uuid : Nat
deriving DecidableEq, Repr

/-- A cached task row (`tasks` table), mirroring `task::Model`. -/
structure Task where
  uuid : Nat
  backend_uuid : Nat
  remote_id : String
  content : String
  description : Option String
  project_uuid : Nat
  section_uuid : Option Nat
  parent_uuid : Option Nat
  priority : Int
  order_index : Int
  due_date : Option String
  due_datetime : Option String
  is_recurring : Bool
  deadline : Option String
  duration : Option String
  is_completed : Bool
  is_deleted : Bool
deriving DecidableEq, Repr

/-- The canonical remote representation of a task returned by a backend,
mirroring `crate::backend::BackendTask`. -/
structure BackendTask where
  remote_id : String
  content : String
  description : Option String
  project_remote_id : String
  section_remote_id : Option String
  parent_remote_id : Option String
  priority : Int
  order_index : Int
  due_date : Option String
  due_datetime : Option String
  is_recurring : Bool
  deadline : Option String
  duration : Option String
  is_completed : Bool
  labels : List String
deriving DecidableEq, Repr

/-- Argument struct for a remote task creation, mirroring
`crate::backend::CreateTaskArgs`. -/
structure CreateTaskArgs where
  content : String
  description : Option String
  project_remote_id : String
  section_remote_id : Option String
  parent_remote_id : Option String
  priority : Option Int
  due_date : Option String
  due_datetime : Option String
  due_string : Option String
  duration : Option String
  labels : List String
deriving DecidableEq, Repr

/-- Argument struct for a remote task update, mirroring
`crate::backend::UpdateTaskArgs`. -/
structure UpdateTaskArgs where
  content : Option String
  description : Option String
  project_remote_id : Option String
  section_remote_id : Option String
  parent_remote_id : Option String
  priority : Option Int
  due_date : Option String
  due_datetime : Option String
  due_string : Option String
  duration : Option String
  labels : Option (List String)
deriving DecidableEq, Repr

/-- One call issued to the remote backend gateway. -/
inductive BackendCall where
  | createTask (args : CreateTaskArgs)
  | updateTask (remote_id : String) (args : UpdateTaskArgs)
  | deleteTask (remote_id : String)
  | completeTask (remote_id : String)
  | reopenTask (remote_id : String)
deriving DecidableEq, Repr

/-- The Local Store: the rows of the relational cache that the task
operations read and write. -/
structure Storage where
  projects : List Project
  sections : List SectionRow
  tasks : List Task
deriving DecidableEq, Repr

/-- Project-update intent for `update_task_full`, mirroring
`ProjectUpdateIntent` in `src/sync/tasks.rs`. -/
inductive ProjectUpdateIntent where
  | Unchanged
  | Set (uuid : Nat)
  | MoveToInbox
deriving DecidableEq, Repr

/-- Boolean key predicate for the unique `(backend_uuid, remote_id)`
index on the `tasks` table. -/
def keyPred (bu : Nat) (rid : String) (t : Task) : Bool :=
  t.backend_uuid == bu && t.remote_id == rid

/-- `TaskRepository::get_by_id`: first row with the given local uuid.
Modelled from the spec: the repository layer is outside `src/`; the spec
describes the Local Store capability `get-by-id`, which also returns
soft-deleted rows (restore reads them). -/
def Storage.getTask (st : Storage) (u : Nat) : Option Task :=
  st.tasks.find? (fun t => t.uuid == u)

/-- `TaskRepository::update`: write an updated row back under its primary
key.  Modelled from the spec: the repository layer is outside `src/`. -/
def Storage.updateTask (st : Storage) (nt : Task) : Storage :=
  { st with tasks := st.tasks.map (fun t => if t.uuid == nt.uuid then nt else t) }

/-- `TaskRepository::delete`: hard-remove the row with the given primary
key.  Modelled from the spec: the repository layer is outside `src/`. -/
def Storage.deleteTask (st : Storage) (u : Nat) : Storage :=
  { st with tasks := st.tasks.filter (fun t => !(t.uuid == u)) }

/-- The shared column list of the two `OnConflict` upserts in
`src/sync/tasks.rs`: every column except the primary key `uuid` and the
conflict key `(backend_uuid, remote_id)` is overwritten by the incoming
row. -/
def updateCols (old nt : Task) : Task :=
  { old with
    content := nt.content, description := nt.description,
    project_uuid := nt.project_uuid, section_uuid := nt.section_uuid,
    parent_uuid := nt.parent_uuid, priority := nt.priority,
    order_index := nt.order_index, due_date := nt.due_date,
    due_datetime := nt.due_datetime, is_recurring := nt.is_recurring,
    deadline := nt.deadline, duration := nt.duration,
    is_completed := nt.is_completed, is_deleted := nt.is_deleted }

/-- The insert-or-update on conflict key `(backend_uuid, remote_id)` used
by `create_task` and `restore_task`: when a row with the key exists its
non-key columns are overwritten, otherwise the new row is inserted. -/
def Storage.upsertTask (st : Storage) (nt : Task) : Storage :=
  if st.tasks.any (keyPred nt.backend_uuid nt.remote_id) then
    { st with
      tasks := st.tasks.map
        (fun t => if keyPred nt.backend_uuid nt.remote_id t then updateCols t nt else t) }
  else
    { st with tasks := st.tasks ++ [nt] }

/-- All task rows carrying a given `(backend_uuid, remote_id)` key. -/
def Storage.tasksWithKey (st : Storage) (bu : Nat) (rid : String) : List Task :=
  st.tasks.filter (keyPred bu rid)

/-- `ProjectRepository::get_remote_id`: local project uuid to remote id.
Modelled from the spec: the repository layer is outside `src/`; a missing
row is a hard error. -/
def getProjectRemoteId (st : Storage) (u : Nat) : Except String String :=
  match st.projects.find? (fun p => p.uuid == u) with
  | some p => Except.ok p.remote_id
  | none => Except.error ("Project not found: " ++ toString u)

/-- `ProjectRepository::get_by_remote_id`: the project row of a backend
instance with the given remote id.  Modelled from the spec: the
repository layer is outside `src/`. -/
def getProjectByRemoteId (st : Storage) (bu : Nat) (rid : String) : Option Project :=
  st.projects.find? (fun p => p.backend_uuid == bu && p.remote_id == rid)

/-- The inbox-project query of `update_task_full`: first project of the
backend instance whose inbox flag is set. -/
def findInboxProject (st : Storage) (bu : Nat) : Option Project :=
  st.projects.find? (fun p => p.backend_uuid == bu && p.is_inbox_project)

/-- `SyncService::lookup_project_uuid`: resolve the remote project id the
backend acknowledged to a local project row.  Modelled from the spec:
defined outside `src/`; resolution is mandatory and its error names the
missing remote id and instructs that a project sync is required. -/
def lookup_project_uuid (st : Storage) (bu : Nat) (rid : String) (ctx : String) :
    Except String Nat :=
  match getProjectByRemoteId st bu rid with
  | some p => Except.ok p.uuid
  | none =>
    Except.error ("Project with remote_id " ++ rid ++ " not found locally during " ++
      ctx ++ ". Please sync projects first.")

/-- `SyncService::lookup_section_uuid`: resolve an optional remote
section id; absence of a match is tolerated and yields `none`.  Modelled
from the spec: defined outside `src/`. -/
def lookup_section_uuid (st : Storage) (bu : Nat) (rid : Option String) : Option Nat :=
  rid.bind (fun r =>
    (st.sections.find? (fun s => s.backend_uuid == bu && s.remote_id == r)).map
      (fun s => s.uuid))

/-- `SectionRepository::get_remote_id`: local section uuid to remote id,
tolerating a missing row.  Modelled from the spec: the repository layer
is outside `src/` and sections are not load-bearing. -/
def getSectionRemoteId (st : Storage) (u : Nat) : Option String :=
  (st.sections.find? (fun s => s.uuid == u)).map (fun s => s.remote_id)

/-- `SyncService::get_task_remote_id`: local task uuid to remote id.
Modelled from the spec: defined outside `src/`; a missing row fails the
operation before any backend call. -/
def get_task_remote_id (st : Storage) (u : Nat) : Except String String :=
  match st.getTask u with
  | some t => Except.ok t.remote_id
  | none => Except.error ("Task not found: " ++ toString u)

/-- Outcome of one reconciliation operation: the returned result, the
local storage after the call, and the remote-backend calls issued, in
order. -/
structure OpResult where
  out : Except String Unit
  store : Storage
  calls : List BackendCall
deriving Repr

/-- The row built from a backend task response and inserted through the
upsert, shared by `create_task` and `restore_task` (the two literal
`task::ActiveModel` blocks in `src/sync/tasks.rs`): a fresh local uuid,
the backend response's fields, resolved local references, and
`is_deleted := false`. -/
def localTaskFromBackend (fresh bu : Nat) (bt : BackendTask)
    (project_uuid : Nat) (section_uuid parent_uuid : Option Nat) : Task :=
  { uuid := fresh, backend_uuid := bu, remote_id := bt.remote_id,
    content := bt.content, description := bt.description,
    project_uuid := project_uuid, section_uuid := section_uuid,
    parent_uuid := parent_uuid, priority := bt.priority,
    order_index := bt.order_index, due_date := bt.due_date,
    due_datetime := bt.due_datetime, is_recurring := bt.is_recurring,
    deadline := bt.deadline, duration := bt.duration,
    is_completed := bt.is_completed, is_deleted := false }

/-- Best-effort parent resolution used inside the local transaction of
`create_task` and `restore_task`: look up an existing local task by
remote id, yielding `none` when absent or unmatched. -/
def lookupParentUuid (st : Storage) (bu : Nat) (rid : Option String) : Option Nat :=
  rid.bind (fun rp =>
    (st.tasks.find? (fun t => t.backend_uuid == bu && t.remote_id == rp)).map
      (fun t => t.uuid))

/-- `SyncService::create_task` from `src/sync/tasks.rs`: resolve the
optional target project to its remote id, call remote create (`resp` is
the backend's acknowledged task), then in a local transaction resolve the
response's remote references back to local ids (project resolution is
mandatory) and insert the new row through the upsert keyed on
`(backend_uuid, remote_id)`.  `fresh` is the `Uuid::new_v4()` value,
`mid` the storage interference while the lock is released. -/
def create_task (st : Storage) (bu : Nat) (mid : Storage → Storage)
    (resp : BackendTask) (fresh : Nat) (content : String)
    (description : Option String) (due_string : Option String)
    (project_uuid : Option Nat) : OpResult :=
  match (match project_uuid with
         | some u =>
           (match getProjectRemoteId st u with
            | Except.ok r => Except.ok (some r)
            | Except.error e => Except.error e)
         | none => Except.ok none) with
  | Except.error e => ⟨Except.error e, st, []⟩
  | Except.ok remote_project_id =>
    let args : CreateTaskArgs :=
      { content := content, description := description,
        project_remote_id := remote_project_id.getD "",
        section_remote_id := none, parent_remote_id := none, priority := none,
        due_date := none, due_datetime := none, due_string := due_string,
        duration := none, labels := [] }
    let calls := [BackendCall.createTask args]
    let st1 := mid st
    match lookup_project_uuid st1 bu resp.project_remote_id "task creation" with
    | Except.error e => ⟨Except.error e, st1, calls⟩
    | Except.ok pj =>
      let section_uuid := lookup_section_uuid st1 bu resp.section_remote_id
      let parent_uuid := lookupParentUuid st1 bu resp.parent_remote_id
      ⟨Except.ok (), st1.upsertTask (localTaskFromBackend fresh bu resp pj section_uuid parent_uuid),
        calls⟩

/-- The project-intent resolution block of `update_task_full`: Unchanged
sends nothing, Set resolves the local project's remote id (hard error
when unknown), MoveToInbox sends the cached inbox project's remote id or
nothing when no inbox project is cached. -/
def resolveProjectArg (st : Storage) (bu : Nat) (intent : ProjectUpdateIntent) :
    Except String (Option String) :=
  match intent with
  | ProjectUpdateIntent.Unchanged => Except.ok none
  | ProjectUpdateIntent.Set u =>
    (match getProjectRemoteId st u with
     | Except.ok r => Except.ok (some r)
     | Except.error e => Except.error e)
  | ProjectUpdateIntent.MoveToInbox =>
    Except.ok ((findInboxProject st bu).map (fun p => p.remote_id))

/-- `SyncService::apply_backend_due_fields`: copy the backend response's
due-date, due-datetime, recurring and deadline fields verbatim onto the
row. -/
def apply_backend_due_fields (t : Task) (bt : BackendTask) : Task :=
  { t with
    due_date := bt.due_date, due_datetime := bt.due_datetime,
    is_recurring := bt.is_recurring, deadline := bt.deadline }

/-- `SyncService::update_task_full`: resolve the task's remote id and the
project intent, call remote update, then (if the row still exists) copy
the response's due fields, content and description onto the row, resolve
the response's project remote id to a local project — a mandatory
resolution whose failure aborts the call before any write — and persist
the row. -/
def update_task_full (st : Storage) (bu : Nat) (mid : Storage → Storage)
    (resp : BackendTask) (task_uuid : Nat) (content : String)
    (description : Option String) (due_string : Option String)
    (project_update : ProjectUpdateIntent) : OpResult :=
  match get_task_remote_id st task_uuid with
  | Except.error e => ⟨Except.error e, st, []⟩
  | Except.ok remote_id =>
    match resolveProjectArg st bu project_update with
    | Except.error e => ⟨Except.error e, st, []⟩
    | Except.ok project_remote_id =>
      let args : UpdateTaskArgs :=
        { content := some content, description := description,
          project_remote_id := project_remote_id, section_remote_id := none,
          parent_remote_id := none, priority := none, due_date := none,
          due_datetime := none, due_string := due_string, duration := none,
          labels := none }
      let calls := [BackendCall.updateTask remote_id args]
      let st1 := mid st
      match st1.getTask task_uuid with
      | none => ⟨Except.ok (), st1, calls⟩
      | some task =>
        match getProjectByRemoteId st1 bu resp.project_remote_id with
        | none =>
          ⟨Except.error ("Project with remote_id " ++ resp.project_remote_id ++
            " not found locally during task update. Please sync projects first."),
            st1, calls⟩
        | some pm =>
          ⟨Except.ok (),
            st1.updateTask
              { apply_backend_due_fields task resp with
                content := resp.content, description := resp.description,
                project_uuid := pm.uuid },
            calls⟩

/-- `SyncService::update_task_due_date`: remote update carrying only the
literal due date; the local write sets only the `due_date` column and a
vanished row is a silent no-op. -/
def update_task_due_date (st : Storage) (mid : Storage → Storage)
    (task_uuid : Nat) (due_date : Option String) : OpResult :=
  match get_task_remote_id st task_uuid with
  | Except.error e => ⟨Except.error e, st, []⟩
  | Except.ok remote_id =>
    let args : UpdateTaskArgs :=
      { content := none, description := none, project_remote_id := none,
        section_remote_id := none, parent_remote_id := none, priority := none,
        due_date := due_date, due_datetime := none, due_string := none,
        duration := none, labels := none }
    let calls := [BackendCall.updateTask remote_id args]
    let st1 := mid st
    match st1.getTask task_uuid with
    | none => ⟨Except.ok (), st1, calls⟩
    | some task => ⟨Except.ok (), st1.updateTask { task with due_date := due_date }, calls⟩

/-- `SyncService::update_task_priority`: remote update carrying only the
new integer priority; the local write sets only the `priority` column and
a vanished row is a silent no-op. -/
def update_task_priority (st : Storage) (mid : Storage → Storage)
    (task_uuid : Nat) (priority : Int) : OpResult :=
  match get_task_remote_id st task_uuid with
  | Except.error e => ⟨Except.error e, st, []⟩
  | Except.ok remote_id =>
    let args : UpdateTaskArgs :=
      { content := none, description := none, project_remote_id := none,
        section_remote_id := none, parent_remote_id := none,
        priority := some priority, due_date := none, due_datetime := none,
        due_string := none, duration := none, labels := none }
    let calls := [BackendCall.updateTask remote_id args]
    let st1 := mid st
    match st1.getTask task_uuid with
    | none => ⟨Except.ok (), st1, calls⟩
    | some task => ⟨Except.ok (), st1.updateTask { task with priority := priority }, calls⟩

/-- `SyncService::delete_task`: remote hard-delete, then set the local
soft-deleted flag on the row (never removing it); a vanished row is a
silent no-op. -/
def delete_task (st : Storage) (mid : Storage → Storage) (task_uuid : Nat) : OpResult :=
  match get_task_remote_id st task_uuid with
  | Except.error e => ⟨Except.error e, st, []⟩
  | Except.ok remote_id =>
    let calls := [BackendCall.deleteTask remote_id]
    let st1 := mid st
    match st1.getTask task_uuid with
    | none => ⟨Except.ok (), st1, calls⟩
    | some task => ⟨Except.ok (), st1.updateTask { task with is_deleted := true }, calls⟩

/-- The parent lookup of `restore_task`'s recreate branch: the stored
parent's remote id via `TaskRepository::get_remote_id`, a hard error when
the parent row is missing, `none` when the task has no parent. -/
def restoreParentRemoteId (st : Storage) (pu : Option Nat) : Except String (Option String) :=
  match pu with
  | some u =>
    (match get_task_remote_id st u with
     | Except.ok r => Except.ok (some r)
     | Except.error e => Except.error e)
  | none => Except.ok none

/-- The `.filter(|d| !d.is_empty())` applied to the stored description
before a restore's remote create: an empty-string description is sent as
absent. -/
def descFilterNonEmpty (d : Option String) : Option String :=
  match d with
  | some s => if s == "" then none else some s
  | none => none

/-- `SyncService::restore_task`: a missing row is a hard error.  A
soft-deleted row is recreated remotely from its preserved fields
(`createResp` is the backend's acknowledged new task), then the old row
is hard-deleted and the new one inserted through the same upsert path as
`create_task` under the fresh uuid `fresh`.  A merely completed row gets
a remote reopen and its completed flag cleared in place. -/
def restore_task (st : Storage) (bu : Nat) (mid : Storage → Storage)
    (createResp : BackendTask) (fresh : Nat) (task_id : Nat) : OpResult :=
  match st.getTask task_id with
  | none => ⟨Except.error ("Task not found in local storage: " ++ toString task_id), st, []⟩
  | some task =>
    if task.is_deleted then
      match getProjectRemoteId st task.project_uuid with
      | Except.error e => ⟨Except.error e, st, []⟩
      | Except.ok remote_project_id =>
        let remote_section_id := task.section_uuid.bind (fun su => getSectionRemoteId st su)
        match restoreParentRemoteId st task.parent_uuid with
        | Except.error e => ⟨Except.error e, st, []⟩
        | Except.ok remote_parent_id =>
          let args : CreateTaskArgs :=
            { content := task.content,
              description := descFilterNonEmpty task.description,
              project_remote_id := remote_project_id,
              section_remote_id := remote_section_id,
              parent_remote_id := remote_parent_id,
              priority := some task.priority, due_date := task.due_date,
              due_datetime := task.due_datetime, due_string := none,
              duration := task.duration, labels := [] }
          let calls := [BackendCall.createTask args]
          let st1 := mid st
          let st2 :=
            match st1.getTask task_id with
            | some oldTask => st1.deleteTask oldTask.uuid
            | none => st1
          match lookup_project_uuid st2 bu createResp.project_remote_id "task restore" with
          | Except.error e => ⟨Except.error e, st2, calls⟩
          | Except.ok pj =>
            let section_uuid := lookup_section_uuid st2 bu createResp.section_remote_id
            let parent_uuid := lookupParentUuid st2 bu createResp.parent_remote_id
            ⟨Except.ok (),
              st2.upsertTask (localTaskFromBackend fresh bu createResp pj section_uuid parent_uuid),
              calls⟩
    else
      let calls := [BackendCall.reopenTask task.remote_id]
      let st1 := mid st
      match st1.getTask task_id with
      | none => ⟨Except.ok (), st1, calls⟩
      | some t2 => ⟨Except.ok (), st1.updateTask { t2 with is_completed := false }, calls⟩

/-- The priority-cycling match of `Action::CyclePriority` in
`src/ui/app_component.rs`: 4 wraps to 1, anything else is incremented. -/
def cycle_priority (p : Int) : Int :=
  if p == 4 then 1 else p + 1

/-- The match condition of the `sanitize_user_error` loop: the trimmed
raw error equals, starts with, or contains the safe prefix. -/
def errMatches (trimmed p : String) : Bool :=
  trimmed == p || isPrefixB p.data trimmed.data || strContains trimmed p

/-- `sanitize_user_error` from `src/ui/core/error_sanitizer.rs`,
parameterized by the `SAFE_ERROR_PREFIXES` list (its entries are named
constants defined outside `src/`): return the first safe prefix that the
trimmed raw error equals, starts with or contains, and otherwise the
fallback message. -/
def sanitize_user_error (prefixes : List String) (raw_error fallback_message : String) :
    String :=
  match prefixes.find? (fun p => errMatches (rustTrim raw_error) p) with
  | some p => p
  | none => fallback_message

/-! Helper lemmas about the embedded string and storage primitives. -/

theorem isPrefixB_self_append (y z : List Char) : isPrefixB y (y ++ z) = true := by
  induction y with
  | nil => rfl
  | cons a as ih => simp [isPrefixB, ih]

theorem listContains_append (x y z : List Char) : listContains (x ++ (y ++ z)) y = true := by
  induction x with
  | nil =>
    cases hy : y ++ z with
    | nil =>
      have : y = [] := by
        cases y with
        | nil => rfl
        | cons b bs => simp at hy
      simp [this, listContains]
    | cons c t =>
      rw [List.nil_append]
      show (isPrefixB y (c :: t) || listContains t y) = true
      rw [← hy, isPrefixB_self_append, Bool.true_or]
  | cons c t ih => simp [listContains, ih]

theorem strContains_middle (a b c : String) : strContains (a ++ b ++ c) b = true := by
  have h1 : (a ++ b ++ c).data = a.data ++ (b.data ++ c.data) := by
    simp [String.data_append]
  rw [strContains, h1]
  exact listContains_append _ _ _

theorem find?_map_update (l : List Task) (nt t0 : Task)
    (h : l.find? (fun t => t.uuid == nt.uuid) = some t0) :
    (l.map (fun t => if t.uuid == nt.uuid then nt else t)).find?
      (fun t => t.uuid == nt.uuid) = some nt := by
  induction l with
  | nil => simp at h
  | cons a t ih =>
    by_cases ha : a.uuid == nt.uuid
    · simp only [List.map_cons]
      rw [show (if a.uuid == nt.uuid then nt else a) = nt from by simp [ha]]
      rw [List.find?_cons_of_pos _ (by simp)]
    · rw [List.find?_cons_of_neg _ (by simp [ha])] at h
      simp only [List.map_cons]
      rw [show (if a.uuid == nt.uuid then nt else a) = a from by simp [ha]]
      rw [List.find?_cons_of_neg _ (by simp [ha])]
      exact ih h

theorem getTask_updateTask (st : Storage) (nt t0 : Task)
    (h : st.getTask nt.uuid = some t0) :
    (st.updateTask nt).getTask nt.uuid = some nt := by
  simp only [Storage.getTask, Storage.updateTask] at h ⊢
  exact find?_map_update st.tasks nt t0 h

theorem getTask_uuid {st : Storage} {u : Nat} {t : Task}
    (h : st.getTask u = some t) : t.uuid = u := by
  have := List.find?_some h
  simpa using this

theorem getTask_mem {st : Storage} {u : Nat} {t : Task}
    (h : st.getTask u = some t) : t ∈ st.tasks :=
  List.mem_of_find?_eq_some h

theorem updateTask_length (st : Storage) (nt : Task) :
    (st.updateTask nt).tasks.length = st.tasks.length := by
  simp [Storage.updateTask]

theorem keyPred_updateCols (bu : Nat) (rid : String) (t nt : Task) :
    keyPred bu rid (updateCols t nt) = keyPred bu rid t := rfl

theorem upsertTask_projects (st : Storage) (nt : Task) :
    (st.upsertTask nt).projects = st.projects := by
  rw [Storage.upsertTask]
  split <;> rfl

theorem deleteTask_projects (st : Storage) (u : Nat) :
    (st.deleteTask u).projects = st.projects := rfl

theorem getProjectByRemoteId_projects {st st2 : Storage}
    (h : st2.projects = st.projects) (bu : Nat) (rid : String) :
    getProjectByRemoteId st2 bu rid = getProjectByRemoteId st bu rid := by
  simp [getProjectByRemoteId, h]

theorem tasksWithKey_upsert_of_nil (st : Storage) (nt : Task)
    (h : st.tasksWithKey nt.backend_uuid nt.remote_id = []) :
    (st.upsertTask nt).tasksWithKey nt.backend_uuid nt.remote_id = [nt] := by
  have hall : ∀ t ∈ st.tasks, ¬ keyPred nt.backend_uuid nt.remote_id t = true :=
    List.filter_eq_nil_iff.mp h
  have hany : st.tasks.any (keyPred nt.backend_uuid nt.remote_id) = false :=
    List.any_eq_false.mpr hall
  rw [Storage.upsertTask, if_neg (by simp [hany])]
  simp only [Storage.tasksWithKey, List.filter_append]
  rw [show (st.tasks.filter (keyPred nt.backend_uuid nt.remote_id)) = [] from h]
  simp [keyPred]

theorem filter_map_update_single (K : Task → Bool) (f : Task → Task)
    (hK : ∀ t, K (f t) = K t) :
    ∀ (l : List Task) (t0 : Task), l.filter K = [t0] →
      (l.map (fun t => if K t then f t else t)).filter K = [f t0] := by
  intro l
  induction l with
  | nil => intro t0 h; simp at h
  | cons a t ih =>
    intro t0 h
    by_cases ha : K a = true
    · rw [List.filter_cons_of_pos ha] at h
      have ha0 : a = t0 := (List.cons_eq_cons.mp h).1
      have ht : t.filter K = [] := (List.cons_eq_cons.mp h).2
      have hallt : ∀ x ∈ t, ¬ K x = true := List.filter_eq_nil_iff.mp ht
      have htmap : (t.map (fun x => if K x then f x else x)).filter K = [] := by
        apply List.filter_eq_nil_iff.mpr
        intro y hy
        rcases List.mem_map.mp hy with ⟨x, hx, hxy⟩
        have hKx : ¬ K x = true := hallt x hx
        rw [if_neg hKx] at hxy
        rw [← hxy]
        exact hKx
      simp only [List.map_cons, if_pos ha]
      rw [List.filter_cons_of_pos (by rw [hK]; exact ha), htmap, ha0]
    · rw [List.filter_cons_of_neg ha] at h
      simp only [List.map_cons, if_neg ha]
      rw [List.filter_cons_of_neg ha]
      exact ih t0 h

theorem tasksWithKey_upsert_of_single (st : Storage) (nt t0 : Task)
    (h : st.tasksWithKey nt.backend_uuid nt.remote_id = [t0]) :
    (st.upsertTask nt).tasksWithKey nt.backend_uuid nt.remote_id = [updateCols t0 nt] := by
  have hmem : t0 ∈ st.tasks.filter (keyPred nt.backend_uuid nt.remote_id) := by
    rw [show (st.tasks.filter (keyPred nt.backend_uuid nt.remote_id)) = [t0] from h]
    exact List.mem_singleton.mpr rfl
  have hany : st.tasks.any (keyPred nt.backend_uuid nt.remote_id) = true :=
    List.any_eq_true.mpr ⟨t0, (List.mem_filter.mp hmem).1, (List.mem_filter.mp hmem).2⟩
  rw [Storage.upsertTask, if_pos (by simp [hany])]
  simp only [Storage.tasksWithKey] at h ⊢
  exact filter_map_update_single _ (fun t => updateCols t nt)
    (fun t => keyPred_updateCols nt.backend_uuid nt.remote_id t nt) st.tasks t0 h

theorem getTask_updateTask_at (st : Storage) (nt t0 : Task) (u : Nat)
    (hu : nt.uuid = u) (h : st.getTask u = some t0) :
    (st.updateTask nt).getTask u = some nt := by
  subst hu
  exact getTask_updateTask st nt t0 h

theorem find?_eq_some_of_unique {α : Type} (P : α → Bool) (p : α) :
    ∀ l : List α, p ∈ l → P p = true → (∀ q ∈ l, P q = true → q = p) →
      l.find? P = some p := by
  intro l
  induction l with
  | nil => intro hmem _ _; simp at hmem
  | cons a t ih =>
    intro hmem hp huniq
    by_cases ha : P a = true
    · rw [List.find?_cons_of_pos _ ha, huniq a (List.mem_cons_self a t) ha]
    · rw [List.find?_cons_of_neg _ ha]
      rcases List.mem_cons.mp hmem with h | h
      · rw [h] at hp; exact absurd hp ha
      · exact ih h hp (fun q hq hQ => huniq q (List.mem_cons_of_mem a hq) hQ)

/-! Concrete fixtures used by the witness theorems below, mirroring the
seed rows the repository's own tests insert. -/

/-- A seed project row for witnesses. -/
def sampleProject (u bu : Nat) (rid : String) (inbox : Bool) : Project :=
  { uuid := u, backend_uuid := bu, remote_id := rid, name := rid,
    is_favorite := false, is_inbox_project := inbox, order_index := 0,
    parent_uuid := none }

/-- A seed task row for witnesses. -/
def sampleTask (u bu : Nat) (rid : String) (pj : Nat) : Task :=
  { uuid := u, backend_uuid := bu, remote_id := rid, content := "orig content",
    description := none, project_uuid := pj, section_uuid := none,
    parent_uuid := none, priority := 1, order_index := 0, due_date := none,
    due_datetime := none, is_recurring := false, deadline := none,
    duration := none, is_completed := false, is_deleted := false }

/-- A backend task response for witnesses. -/
def sampleResp (rid prj : String) : BackendTask :=
  { remote_id := rid, content := "updated content",
    description := some "updated description", project_remote_id := prj,
    section_remote_id := none, parent_remote_id := none, priority := 1,
    order_index := 0, due_date := some "2026-03-01", due_datetime := none,
    is_recurring := false, deadline := none, duration := none,
    is_completed := false, labels := [] }

/-- A seed storage for witnesses: one project and one task. -/
def sampleStore : Storage :=
  { projects := [sampleProject 1 0 "p1" false], sections := [],
    tasks := [sampleTask 2 0 "t1" 1] }

/-! The claims. -/

/-- C1: when the backend's acknowledged response names a project remote id
with no matching local project row for the backend instance,
`update_task_full` fails with an error containing that remote id's
literal text and the stored task row is left completely unchanged. -/
theorem c1_update_task_full_unmapped_project_fails_cleanly
    (st : Storage) (bu : Nat) (resp : BackendTask) (task_uuid : Nat)
    (content : String) (description due_string : Option String)
    (intent : ProjectUpdateIntent) (task : Task) (pr : Option String)
    (h1 : st.getTask task_uuid = some task)
    (h2 : resolveProjectArg st bu intent = Except.ok pr)
    (h3 : getProjectByRemoteId st bu resp.project_remote_id = none) :
    (update_task_full st bu id resp task_uuid content description due_string intent).out =
      Except.error ("Project with remote_id " ++ resp.project_remote_id ++
        " not found locally during task update. Please sync projects first.") ∧
    strContains ("Project with remote_id " ++ resp.project_remote_id ++
        " not found locally during task update. Please sync projects first.")
      resp.project_remote_id = true ∧
    (update_task_full st bu id resp task_uuid content description due_string intent).store = st := by
  have hrid : get_task_remote_id st task_uuid = Except.ok task.remote_id := by
    rw [get_task_remote_id, h1]
  simp only [update_task_full, hrid, h2, id_eq, h1, h3]
  exact ⟨trivial, strContains_middle _ _ _, trivial⟩

/-- Witness for C1 at a concrete storage whose only project has remote id
`p1` while the backend acknowledges project `missing`. -/
theorem c1_update_task_full_unmapped_project_fails_cleanly_witness :
    sampleStore.getTask 2 = some (sampleTask 2 0 "t1" 1) ∧
    resolveProjectArg sampleStore 0 ProjectUpdateIntent.Unchanged = Except.ok none ∧
    getProjectByRemoteId sampleStore 0 (sampleResp "t1" "missing").project_remote_id = none ∧
    (update_task_full sampleStore 0 id (sampleResp "t1" "missing") 2 "c" none none
      ProjectUpdateIntent.Unchanged).store = sampleStore :=
  ⟨rfl, rfl, rfl,
    (c1_update_task_full_unmapped_project_fails_cleanly sampleStore 0
      (sampleResp "t1" "missing") 2 "c" none none ProjectUpdateIntent.Unchanged
      (sampleTask 2 0 "t1" 1) none rfl rfl rfl).2.2⟩

/-- C2: when `update_task_full` succeeds and the local row exists, the
stored row afterwards has content, description, project local id
(resolved from the response's project remote id), due-date, due-datetime,
recurring flag and deadline all equal to the backend response's fields. -/
theorem c2_update_task_full_success_matches_response
    (st : Storage) (bu : Nat) (resp : BackendTask) (task_uuid : Nat)
    (content : String) (description due_string : Option String)
    (intent : ProjectUpdateIntent) (task : Task) (pr : Option String) (pm : Project)
    (h1 : st.getTask task_uuid = some task)
    (h2 : resolveProjectArg st bu intent = Except.ok pr)
    (h3 : getProjectByRemoteId st bu resp.project_remote_id = some pm) :
    (update_task_full st bu id resp task_uuid content description due_string intent).out =
      Except.ok () ∧
    (update_task_full st bu id resp task_uuid content description due_string
        intent).store.getTask task_uuid =
      some { task with
             content := resp.content, description := resp.description,
             project_uuid := pm.uuid, due_date := resp.due_date,
             due_datetime := resp.due_datetime, is_recurring := resp.is_recurring,
             deadline := resp.deadline } := by
  have hrid : get_task_remote_id st task_uuid = Except.ok task.remote_id := by
    rw [get_task_remote_id, h1]
  have huuid : task.uuid = task_uuid := getTask_uuid h1
  simp only [update_task_full, hrid, h2, id_eq, h1, h3, apply_backend_due_fields]
  exact ⟨trivial, getTask_updateTask_at st _ task task_uuid huuid h1⟩

/-- Witness for C2 at a concrete storage where the acknowledged project
maps locally. -/
theorem c2_update_task_full_success_matches_response_witness :
    sampleStore.getTask 2 = some (sampleTask 2 0 "t1" 1) ∧
    resolveProjectArg sampleStore 0 ProjectUpdateIntent.Unchanged = Except.ok none ∧
    getProjectByRemoteId sampleStore 0 (sampleResp "t1" "p1").project_remote_id =
      some (sampleProject 1 0 "p1" false) ∧
    (update_task_full sampleStore 0 id (sampleResp "t1" "p1") 2 "c" none none
        ProjectUpdateIntent.Unchanged).store.getTask 2 =
      some { sampleTask 2 0 "t1" 1 with
             content := (sampleResp "t1" "p1").content,
             description := (sampleResp "t1" "p1").description,
             project_uuid := (sampleProject 1 0 "p1" false).uuid,
             due_date := (sampleResp "t1" "p1").due_date,
             due_datetime := (sampleResp "t1" "p1").due_datetime,
             is_recurring := (sampleResp "t1" "p1").is_recurring,
             deadline := (sampleResp "t1" "p1").deadline } :=
  ⟨rfl, rfl, rfl,
    (c2_update_task_full_success_matches_response sampleStore 0 (sampleResp "t1" "p1")
      2 "c" none none ProjectUpdateIntent.Unchanged (sampleTask 2 0 "t1" 1) none
      (sampleProject 1 0 "p1" false) rfl rfl rfl).2⟩

/-- C9: cycling a task's priority maps 1 to 2, 2 to 3, 3 to 4, and 4 back
to 1. -/
theorem c9_cycle_priority_wraps (p : Int) :
    (p = 1 ∨ p = 2 ∨ p = 3 → cycle_priority p = p + 1) ∧
    (p = 4 → cycle_priority p = 1) := by
  constructor
  · rintro (rfl | rfl | rfl) <;> decide
  · rintro rfl; decide

/-- Witness for C9 at priorities 2 and 4. -/
theorem c9_cycle_priority_wraps_witness :
    ((2 : Int) = 1 ∨ (2 : Int) = 2 ∨ (2 : Int) = 3) ∧ cycle_priority 2 = 2 + 1 ∧
    ((4 : Int) = 4) ∧ cycle_priority 4 = 1 :=
  ⟨Or.inr (Or.inl rfl), (c9_cycle_priority_wraps 2).1 (Or.inr (Or.inl rfl)), rfl,
    (c9_cycle_priority_wraps 4).2 rfl⟩

/-- C10: `sanitize_user_error` returns either the first safe prefix that
the trimmed raw error equals, starts with or contains, or exactly the
fallback string; no other text from the raw error appears in the
returned message. -/
theorem c10_sanitize_user_error_safe_output (prefixes : List String) (raw fb : String) :
    (∃ p l1 l2, prefixes = l1 ++ p :: l2 ∧
      sanitize_user_error prefixes raw fb = p ∧
      errMatches (rustTrim raw) p = true ∧
      ∀ q ∈ l1, errMatches (rustTrim raw) q = false) ∨
    (sanitize_user_error prefixes raw fb = fb ∧
      ∀ q ∈ prefixes, errMatches (rustTrim raw) q = false) := by
  induction prefixes with
  | nil =>
    right
    exact ⟨rfl, fun q hq => absurd hq (List.not_mem_nil q)⟩
  | cons a t ih =>
    by_cases ha : errMatches (rustTrim raw) a = true
    · left
      refine ⟨a, [], t, rfl, ?_, ha, fun q hq => absurd hq (List.not_mem_nil q)⟩
      rw [sanitize_user_error, List.find?_cons_of_pos _ ha]
    · have hskip : sanitize_user_error (a :: t) raw fb = sanitize_user_error t raw fb := by
        simp only [sanitize_user_error]
        rw [List.find?_cons_of_neg _ ha]
      rcases ih with ⟨p, l1, l2, heq, hval, hm, hfirst⟩ | ⟨hval, hall⟩
      · left
        refine ⟨p, a :: l1, l2, by rw [heq, List.cons_append], by rw [hskip]; exact hval, hm, ?_⟩
        intro q hq
        rcases List.mem_cons.mp hq with h | h
        · rw [h]; exact Bool.eq_false_iff.mpr ha
        · exact hfirst q h
      · right
        refine ⟨by rw [hskip]; exact hval, ?_⟩
        intro q hq
        rcases List.mem_cons.mp hq with h | h
        · rw [h]; exact Bool.eq_false_iff.mpr ha
        · exact hall q h

/-- The single remote call issued by `update_task_full` once the task's
remote id and the project intent have resolved : an update of the task's
remote id carrying content, description, the resolved project argument
and the due string, independently of what the write phase later finds. -/
theorem update_task_full_calls (st : Storage) (bu : Nat) (resp : BackendTask)
    (task_uuid : Nat) (content : String) (description due_string : Option String)
    (intent : ProjectUpdateIntent) (task : Task) (pr : Option String)
    (h1 : st.getTask task_uuid = some task)
    (h2 : resolveProjectArg st bu intent = Except.ok pr) :
    (update_task_full st bu id resp task_uuid content description due_string intent).calls =
      [BackendCall.updateTask task.remote_id
        { content := some content, description := description,
          project_remote_id := pr, section_remote_id := none,
          parent_remote_id := none, priority := none, due_date := none,
          due_datetime := none, due_string := due_string, duration := none,
          labels := none }] := by
  have hrid : get_task_remote_id st task_uuid = Except.ok task.remote_id := by
    rw [get_task_remote_id, h1]
  simp only [update_task_full, hrid, h2, id_eq, h1]
  cases hp : getProjectByRemoteId st bu resp.project_remote_id <;> simp

/-- C6: the project argument `update_task_full` sends to the remote
backend is fixed by the intent: Unchanged sends none; MoveToInbox sends
the locally cached inbox project's remote id when one exists for the
backend instance, and none when no inbox project is cached. -/
theorem c6_update_task_full_project_argument (st : Storage) (bu : Nat)
    (resp : BackendTask) (task_uuid : Nat) (content : String)
    (description due_string : Option String) (task : Task)
    (h1 : st.getTask task_uuid = some task) :
    ((update_task_full st bu id resp task_uuid content description due_string
        ProjectUpdateIntent.Unchanged).calls =
      [BackendCall.updateTask task.remote_id
        { content := some content, description := description,
          project_remote_id := none, section_remote_id := none,
          parent_remote_id := none, priority := none, due_date := none,
          due_datetime := none, due_string := due_string, duration := none,
          labels := none }]) ∧
    (∀ p : Project, p ∈ st.projects → p.backend_uuid = bu → p.is_inbox_project = true →
      (∀ q : Project, q ∈ st.projects → q.backend_uuid = bu → q.is_inbox_project = true → q = p) →
      (update_task_full st bu id resp task_uuid content description due_string
          ProjectUpdateIntent.MoveToInbox).calls =
        [BackendCall.updateTask task.remote_id
          { content := some content, description := description,
            project_remote_id := some p.remote_id, section_remote_id := none,
            parent_remote_id := none, priority := none, due_date := none,
            due_datetime := none, due_string := due_string, duration := none,
            labels := none }]) ∧
    ((∀ q : Project, q ∈ st.projects → ¬(q.backend_uuid = bu ∧ q.is_inbox_project = true)) →
      (update_task_full st bu id resp task_uuid content description due_string
          ProjectUpdateIntent.MoveToInbox).calls =
        [BackendCall.updateTask task.remote_id
          { content := some content, description := description,
            project_remote_id := none, section_remote_id := none,
            parent_remote_id := none, priority := none, due_date := none,
            due_datetime := none, due_string := due_string, duration := none,
            labels := none }]) := by
  refine ⟨?_, ?_, ?_⟩
  · exact update_task_full_calls st bu resp task_uuid content description due_string
      ProjectUpdateIntent.Unchanged task none h1 rfl
  · intro p hmem hbu hinbox huniq
    have hfind : findInboxProject st bu = some p := by
      apply find?_eq_some_of_unique _ p st.projects hmem
      · simp [hbu, hinbox]
      · intro q hq hQ
        have hq2 : q.backend_uuid = bu ∧ q.is_inbox_project = true := by
          simpa using hQ
        exact huniq q hq hq2.1 hq2.2
    have h2 : resolveProjectArg st bu ProjectUpdateIntent.MoveToInbox =
        Except.ok (some p.remote_id) := by
      rw [resolveProjectArg, hfind]
      rfl
    exact update_task_full_calls st bu resp task_uuid content description due_string
      ProjectUpdateIntent.MoveToInbox task (some p.remote_id) h1 h2
  · intro hnone
    have hfind : findInboxProject st bu = none := by
      apply List.find?_eq_none.mpr
      intro q hq
      intro hQ
      have hq2 : q.backend_uuid = bu ∧ q.is_inbox_project = true := by
        simpa using hQ
      exact hnone q hq hq2
    have h2 : resolveProjectArg st bu ProjectUpdateIntent.MoveToInbox = Except.ok none := by
      rw [resolveProjectArg, hfind]
      rfl
    exact update_task_full_calls st bu resp task_uuid content description due_string
      ProjectUpdateIntent.MoveToInbox task none h1 h2

/-- Witness for C6: Unchanged sends no project; MoveToInbox with a cached
inbox project of remote id `inbox-r` sends `inbox-r`; MoveToInbox with no
inbox project cached sends none. -/
theorem c6_update_task_full_project_argument_witness :
    ((update_task_full
        { projects := [sampleProject 1 0 "p1" false, sampleProject 3 0 "inbox-r" true],
          sections := [], tasks := [sampleTask 2 0 "t1" 1] } 0 id
        (sampleResp "t1" "p1") 2 "c" none none ProjectUpdateIntent.Unchanged).calls =
      [BackendCall.updateTask "t1"
        { content := some "c", description := none, project_remote_id := none,
          section_remote_id := none, parent_remote_id := none, priority := none,
          due_date := none, due_datetime := none, due_string := none,
          duration := none, labels := none }]) ∧
    ((update_task_full
        { projects := [sampleProject 1 0 "p1" false, sampleProject 3 0 "inbox-r" true],
          sections := [], tasks := [sampleTask 2 0 "t1" 1] } 0 id
        (sampleResp "t1" "p1") 2 "c" none none ProjectUpdateIntent.MoveToInbox).calls =
      [BackendCall.updateTask "t1"
        { content := some "c", description := none,
          project_remote_id := some "inbox-r", section_remote_id := none,
          parent_remote_id := none, priority := none, due_date := none,
          due_datetime := none, due_string := none, duration := none,
          labels := none }]) ∧
    ((update_task_full sampleStore 0 id (sampleResp "t1" "p1") 2 "c" none none
        ProjectUpdateIntent.MoveToInbox).calls =
      [BackendCall.updateTask "t1"
        { content := some "c", description := none, project_remote_id := none,
          section_remote_id := none, parent_remote_id := none, priority := none,
          due_date := none, due_datetime := none, due_string := none,
          duration := none, labels := none }]) := by
  refine ⟨?_, ?_, ?_⟩
  · exact (c6_update_task_full_project_argument
      { projects := [sampleProject 1 0 "p1" false, sampleProject 3 0 "inbox-r" true],
        sections := [], tasks := [sampleTask 2 0 "t1" 1] } 0 (sampleResp "t1" "p1")
      2 "c" none none (sampleTask 2 0 "t1" 1) rfl).1
  · exact (c6_update_task_full_project_argument
      { projects := [sampleProject 1 0 "p1" false, sampleProject 3 0 "inbox-r" true],
        sections := [], tasks := [sampleTask 2 0 "t1" 1] } 0 (sampleResp "t1" "p1")
      2 "c" none none (sampleTask 2 0 "t1" 1) rfl).2.1
      (sampleProject 3 0 "inbox-r" true) (by decide) rfl rfl (by decide)
  · exact (c6_update_task_full_project_argument sampleStore 0 (sampleResp "t1" "p1")
      2 "c" none none (sampleTask 2 0 "t1" 1) rfl).2.2 (by decide)

/-- C5: restoring a task whose row has deleted=false and completed=true
issues only a remote reopen call (no create), and afterwards the same row
(same local id) has its completed flag cleared. -/
theorem c5_restore_completed_task_reopens (st : Storage) (bu : Nat)
    (createResp : BackendTask) (fresh task_id : Nat) (task : Task)
    (h1 : st.getTask task_id = some task)
    (hdel : task.is_deleted = false)
    (_hcomp : task.is_completed = true) :
    (restore_task st bu id createResp fresh task_id).calls =
      [BackendCall.reopenTask task.remote_id] ∧
    (restore_task st bu id createResp fresh task_id).out = Except.ok () ∧
    (restore_task st bu id createResp fresh task_id).store.getTask task_id =
      some { task with is_completed := false } := by
  have huuid : task.uuid = task_id := getTask_uuid h1
  simp only [restore_task, h1, hdel, id_eq, Bool.false_eq_true, if_false]
  exact ⟨trivial, trivial, getTask_updateTask_at st _ task task_id huuid h1⟩

/-- Witness for C5 on a completed, not-deleted task. -/
theorem c5_restore_completed_task_reopens_witness :
    ({ projects := [sampleProject 1 0 "p1" false], sections := [],
       tasks := [{ sampleTask 2 0 "t1" 1 with is_completed := true }] } : Storage).getTask 2 =
      some { sampleTask 2 0 "t1" 1 with is_completed := true } ∧
    ({ sampleTask 2 0 "t1" 1 with is_completed := true } : Task).is_deleted = false ∧
    ({ sampleTask 2 0 "t1" 1 with is_completed := true } : Task).is_completed = true ∧
    (restore_task
      { projects := [sampleProject 1 0 "p1" false], sections := [],
        tasks := [{ sampleTask 2 0 "t1" 1 with is_completed := true }] } 0 id
      (sampleResp "t1" "p1") 9 2).calls = [BackendCall.reopenTask "t1"] :=
  ⟨rfl, rfl, rfl,
    (c5_restore_completed_task_reopens
      { projects := [sampleProject 1 0 "p1" false], sections := [],
        tasks := [{ sampleTask 2 0 "t1" 1 with is_completed := true }] } 0
      (sampleResp "t1" "p1") 9 2 { sampleTask 2 0 "t1" 1 with is_completed := true }
      rfl rfl rfl).1⟩

/-- C7: when the local row is absent at write time, the single-field
updates (due date, priority) report success with no local change beyond
what concurrent operations did, while `restore_task` on an absent row
returns a hard error and performs no backend call and no local change. -/
theorem c7_notfound_swallowed_for_updates_fatal_for_restore :
    (∀ (st : Storage) (mid : Storage → Storage) (task_uuid : Nat) (priority : Int)
      (task : Task), st.getTask task_uuid = some task →
      (mid st).getTask task_uuid = none →
      (update_task_priority st mid task_uuid priority).out = Except.ok () ∧
      (update_task_priority st mid task_uuid priority).store = mid st) ∧
    (∀ (st : Storage) (mid : Storage → Storage) (task_uuid : Nat)
      (due_date : Option String) (task : Task), st.getTask task_uuid = some task →
      (mid st).getTask task_uuid = none →
      (update_task_due_date st mid task_uuid due_date).out = Except.ok () ∧
      (update_task_due_date st mid task_uuid due_date).store = mid st) ∧
    (∀ (st : Storage) (bu : Nat) (mid : Storage → Storage) (createResp : BackendTask)
      (fresh task_id : Nat), st.getTask task_id = none →
      (restore_task st bu mid createResp fresh task_id).out =
        Except.error ("Task not found in local storage: " ++ toString task_id) ∧
      (restore_task st bu mid createResp fresh task_id).store = st ∧
      (restore_task st bu mid createResp fresh task_id).calls = []) := by
  refine ⟨?_, ?_, ?_⟩
  · intro st mid task_uuid priority task h1 h2
    have hrid : get_task_remote_id st task_uuid = Except.ok task.remote_id := by
      rw [get_task_remote_id, h1]
    simp only [update_task_priority, hrid, h2]
    exact ⟨trivial, trivial⟩
  · intro st mid task_uuid due_date task h1 h2
    have hrid : get_task_remote_id st task_uuid = Except.ok task.remote_id := by
      rw [get_task_remote_id, h1]
    simp only [update_task_due_date, hrid, h2]
    exact ⟨trivial, trivial⟩
  · intro st bu mid createResp fresh task_id h1
    simp only [restore_task, h1]
    exact ⟨trivial, trivial, trivial⟩

/-- Witness for C7: a concurrent hard delete between the remote call and
the local write hits the swallowed-NotFound path of the single-field
updates, and restore on an absent row errors. -/
theorem c7_notfound_swallowed_for_updates_fatal_for_restore_witness :
    sampleStore.getTask 2 = some (sampleTask 2 0 "t1" 1) ∧
    ((fun s => Storage.deleteTask s 2) sampleStore).getTask 2 = none ∧
    (update_task_priority sampleStore (fun s => Storage.deleteTask s 2) 2 3).out =
      Except.ok () ∧
    (update_task_due_date sampleStore (fun s => Storage.deleteTask s 2) 2
      (some "2026-03-01")).out = Except.ok () ∧
    ({ projects := [], sections := [], tasks := [] } : Storage).getTask 2 = none ∧
    (restore_task { projects := [], sections := [], tasks := [] } 0 id
      (sampleResp "t1" "p1") 9 2).out =
      Except.error ("Task not found in local storage: " ++ toString 2) :=
  ⟨rfl, rfl,
    ((c7_notfound_swallowed_for_updates_fatal_for_restore).1 sampleStore
      (fun s => Storage.deleteTask s 2) 2 3 (sampleTask 2 0 "t1" 1) rfl rfl).1,
    ((c7_notfound_swallowed_for_updates_fatal_for_restore).2.1 sampleStore
      (fun s => Storage.deleteTask s 2) 2 (some "2026-03-01") (sampleTask 2 0 "t1" 1)
      rfl rfl).1,
    rfl,
    ((c7_notfound_swallowed_for_updates_fatal_for_restore).2.2
      { projects := [], sections := [], tasks := [] } 0 id (sampleResp "t1" "p1")
      9 2 rfl).1⟩

/-- C8: a successful delete issues a remote hard-delete and the local row
is never removed: only its soft-deleted flag is set, every other field
unchanged and the table length preserved. -/
theorem c8_delete_task_soft_deletes_only (st : Storage) (task_uuid : Nat) (task : Task)
    (h1 : st.getTask task_uuid = some task) :
    (delete_task st id task_uuid).out = Except.ok () ∧
    (delete_task st id task_uuid).calls = [BackendCall.deleteTask task.remote_id] ∧
    (delete_task st id task_uuid).store.getTask task_uuid =
      some { task with is_deleted := true } ∧
    (delete_task st id task_uuid).store.tasks.length = st.tasks.length := by
  have hrid : get_task_remote_id st task_uuid = Except.ok task.remote_id := by
    rw [get_task_remote_id, h1]
  have huuid : task.uuid = task_uuid := getTask_uuid h1
  simp only [delete_task, hrid, id_eq, h1]
  exact ⟨trivial, trivial, getTask_updateTask_at st _ task task_uuid huuid h1,
    updateTask_length st _⟩

/-- Witness for C8 on the sample storage. -/
theorem c8_delete_task_soft_deletes_only_witness :
    sampleStore.getTask 2 = some (sampleTask 2 0 "t1" 1) ∧
    (delete_task sampleStore id 2).store.getTask 2 =
      some { sampleTask 2 0 "t1" 1 with is_deleted := true } ∧
    (delete_task sampleStore id 2).store.tasks.length = sampleStore.tasks.length :=
  ⟨rfl,
    (c8_delete_task_soft_deletes_only sampleStore 2 (sampleTask 2 0 "t1" 1) rfl).2.2.1,
    (c8_delete_task_soft_deletes_only sampleStore 2 (sampleTask 2 0 "t1" 1) rfl).2.2.2⟩

/-- C3: the local insert of `create_task` is an upsert keyed on
`(backend_instance_id, remote_id)`: running it twice with responses
carrying the same key produces exactly one row with that key, whose
non-key fields reflect the second response and whose local id is the one
minted by the first run. -/
theorem c3_create_task_upsert_idempotent (st : Storage) (bu : Nat)
    (resp1 resp2 : BackendTask) (rid : String) (fresh1 fresh2 : Nat)
    (c1 c2 : String) (d1 d2 ds1 ds2 : Option String) (pm1 pm2 : Project)
    (hr1 : resp1.remote_id = rid) (hr2 : resp2.remote_id = rid)
    (hkey : st.tasksWithKey bu rid = [])
    (h1 : getProjectByRemoteId st bu resp1.project_remote_id = some pm1)
    (h2 : getProjectByRemoteId st bu resp2.project_remote_id = some pm2) :
    (create_task st bu id resp1 fresh1 c1 d1 ds1 none).out = Except.ok () ∧
    (create_task (create_task st bu id resp1 fresh1 c1 d1 ds1 none).store
      bu id resp2 fresh2 c2 d2 ds2 none).out = Except.ok () ∧
    ∃ t : Task,
      (create_task (create_task st bu id resp1 fresh1 c1 d1 ds1 none).store
        bu id resp2 fresh2 c2 d2 ds2 none).store.tasksWithKey bu rid = [t] ∧
      t.uuid = fresh1 ∧ t.content = resp2.content ∧
      t.description = resp2.description ∧ t.project_uuid = pm2.uuid ∧
      t.priority = resp2.priority ∧ t.due_date = resp2.due_date ∧
      t.due_datetime = resp2.due_datetime ∧ t.is_recurring = resp2.is_recurring ∧
      t.deadline = resp2.deadline ∧ t.duration = resp2.duration ∧
      t.is_completed = resp2.is_completed ∧ t.is_deleted = false := by
  have hl1 : lookup_project_uuid st bu resp1.project_remote_id "task creation" =
      Except.ok pm1.uuid := by
    rw [lookup_project_uuid, h1]
  have hr1store : (create_task st bu id resp1 fresh1 c1 d1 ds1 none).store =
      st.upsertTask (localTaskFromBackend fresh1 bu resp1 pm1.uuid
        (lookup_section_uuid st bu resp1.section_remote_id)
        (lookupParentUuid st bu resp1.parent_remote_id)) := by
    simp only [create_task, id_eq, hl1]
  have hr1out : (create_task st bu id resp1 fresh1 c1 d1 ds1 none).out = Except.ok () := by
    simp only [create_task, id_eq, hl1]
  set T1 := localTaskFromBackend fresh1 bu resp1 pm1.uuid
    (lookup_section_uuid st bu resp1.section_remote_id)
    (lookupParentUuid st bu resp1.parent_remote_id) with hT1
  have h2s : getProjectByRemoteId (st.upsertTask T1) bu resp2.project_remote_id =
      some pm2 := by
    rw [getProjectByRemoteId_projects (upsertTask_projects st T1)]
    exact h2
  have hl2 : lookup_project_uuid (st.upsertTask T1) bu resp2.project_remote_id
      "task creation" = Except.ok pm2.uuid := by
    rw [lookup_project_uuid, h2s]
  have hkey0 : st.tasksWithKey T1.backend_uuid T1.remote_id = [] := by
    rw [show T1.backend_uuid = bu from rfl, show T1.remote_id = rid from hr1]
    exact hkey
  have hkey1 : (st.upsertTask T1).tasksWithKey bu rid = [T1] := by
    have h := tasksWithKey_upsert_of_nil st T1 hkey0
    rw [show T1.backend_uuid = bu from rfl, show T1.remote_id = rid from hr1] at h
    exact h
  refine ⟨hr1out, ?_, ?_⟩
  · rw [hr1store]
    simp only [create_task, id_eq, hl2]
  · rw [hr1store]
    simp only [create_task, id_eq, hl2]
    set T2 := localTaskFromBackend fresh2 bu resp2 pm2.uuid
      (lookup_section_uuid (st.upsertTask T1) bu resp2.section_remote_id)
      (lookupParentUuid (st.upsertTask T1) bu resp2.parent_remote_id) with hT2
    have hkey1b : (st.upsertTask T1).tasksWithKey T2.backend_uuid T2.remote_id = [T1] := by
      rw [show T2.backend_uuid = bu from rfl, show T2.remote_id = rid from hr2]
      exact hkey1
    have hfinal := tasksWithKey_upsert_of_single (st.upsertTask T1) T2 T1 hkey1b
    rw [show T2.backend_uuid = bu from rfl, show T2.remote_id = rid from hr2] at hfinal
    exact ⟨updateCols T1 T2, hfinal, rfl, rfl, rfl, rfl, rfl, rfl, rfl, rfl, rfl, rfl,
      rfl, rfl⟩

/-- Witness for C3: creating twice against an empty task table with
responses sharing remote id `t9`. -/
theorem c3_create_task_upsert_idempotent_witness :
    (sampleResp "t9" "p1").remote_id = "t9" ∧
    ({ projects := [sampleProject 1 0 "p1" false], sections := [],
       tasks := [] } : Storage).tasksWithKey 0 "t9" = [] ∧
    getProjectByRemoteId
      { projects := [sampleProject 1 0 "p1" false], sections := [], tasks := [] } 0
      (sampleResp "t9" "p1").project_remote_id = some (sampleProject 1 0 "p1" false) ∧
    (∃ t : Task,
      (create_task (create_task
          { projects := [sampleProject 1 0 "p1" false], sections := [], tasks := [] }
          0 id (sampleResp "t9" "p1") 7 "a" none none none).store
        0 id (sampleResp "t9" "p1") 8 "b" none none none).store.tasksWithKey 0 "t9" = [t] ∧
      t.uuid = 7 ∧ t.content = (sampleResp "t9" "p1").content ∧
      t.description = (sampleResp "t9" "p1").description ∧
      t.project_uuid = (sampleProject 1 0 "p1" false).uuid ∧
      t.priority = (sampleResp "t9" "p1").priority ∧
      t.due_date = (sampleResp "t9" "p1").due_date ∧
      t.due_datetime = (sampleResp "t9" "p1").due_datetime ∧
      t.is_recurring = (sampleResp "t9" "p1").is_recurring ∧
      t.deadline = (sampleResp "t9" "p1").deadline ∧
      t.duration = (sampleResp "t9" "p1").duration ∧
      t.is_completed = (sampleResp "t9" "p1").is_completed ∧
      t.is_deleted = false) :=
  ⟨rfl, rfl, rfl,
    (c3_create_task_upsert_idempotent
      { projects := [sampleProject 1 0 "p1" false], sections := [], tasks := [] } 0
      (sampleResp "t9" "p1") (sampleResp "t9" "p1") "t9" 7 8 "a" "b" none none none none
      (sampleProject 1 0 "p1" false) (sampleProject 1 0 "p1" false)
      rfl rfl rfl rfl rfl).2.2⟩

/-- C4: restoring a soft-deleted task issues a remote create carrying the
row's preserved content, priority, due-date, due-datetime and duration
(an empty-string description being sent as absent); afterwards the old
row no longer exists under the old local id and exactly one new row
exists under the fresh local id with deleted=false. -/
theorem c4_restore_deleted_task_recreates (st : Storage) (bu : Nat)
    (createResp : BackendTask) (fresh task_id : Nat) (task : Task)
    (rpid : String) (rparent : Option String) (pm : Project)
    (h1 : st.getTask task_id = some task)
    (hdel : task.is_deleted = true)
    (hpr : getProjectRemoteId st task.project_uuid = Except.ok rpid)
    (hpar : restoreParentRemoteId st task.parent_uuid = Except.ok rparent)
    (hpm : getProjectByRemoteId st bu createResp.project_remote_id = some pm)
    (hfresh : ∀ t ∈ st.tasks, t.uuid ≠ fresh)
    (hother : ∀ t ∈ st.tasks, t.uuid ≠ task_id →
      keyPred bu createResp.remote_id t = false) :
    (restore_task st bu id createResp fresh task_id).out = Except.ok () ∧
    (restore_task st bu id createResp fresh task_id).calls =
      [BackendCall.createTask
        { content := task.content,
          description := descFilterNonEmpty task.description,
          project_remote_id := rpid,
          section_remote_id := task.section_uuid.bind (fun su => getSectionRemoteId st su),
          parent_remote_id := rparent,
          priority := some task.priority, due_date := task.due_date,
          due_datetime := task.due_datetime, due_string := none,
          duration := task.duration, labels := [] }] ∧
    (task.description = some "" → descFilterNonEmpty task.description = none) ∧
    (restore_task st bu id createResp fresh task_id).store.getTask task_id = none ∧
    (∃ nt : Task,
      (restore_task st bu id createResp fresh task_id).store.getTask fresh = some nt ∧
      nt.is_deleted = false ∧ nt.uuid = fresh) ∧
    ((restore_task st bu id createResp fresh task_id).store.tasks.filter
      (fun t => t.uuid == fresh)).length = 1 := by
  have huuid : task.uuid = task_id := getTask_uuid h1
  have htmem : task ∈ st.tasks := getTask_mem h1
  have hfreshne : task_id ≠ fresh := by
    rw [← huuid]
    exact hfresh task htmem
  have hpm2 : getProjectByRemoteId (st.deleteTask task.uuid) bu
      createResp.project_remote_id = some pm := by
    rw [getProjectByRemoteId_projects (deleteTask_projects st task.uuid)]
    exact hpm
  have hl : lookup_project_uuid (st.deleteTask task.uuid) bu
      createResp.project_remote_id "task restore" = Except.ok pm.uuid := by
    rw [lookup_project_uuid, hpm2]
  have hdelmem : ∀ x ∈ (st.deleteTask task.uuid).tasks,
      x ∈ st.tasks ∧ x.uuid ≠ task_id := by
    intro x hx
    have := List.mem_filter.mp hx
    refine ⟨this.1, ?_⟩
    have hb := this.2
    rw [← huuid]
    simpa using hb
  have hanyf : (st.deleteTask task.uuid).tasks.any
      (keyPred bu createResp.remote_id) = false := by
    apply List.any_eq_false.mpr
    intro x hx
    rcases hdelmem x hx with ⟨hx1, hx2⟩
    rw [hother x hx1 hx2]
    exact Bool.false_ne_true
  have hups : (st.deleteTask task.uuid).upsertTask
      (localTaskFromBackend fresh bu createResp pm.uuid
        (lookup_section_uuid (st.deleteTask task.uuid) bu createResp.section_remote_id)
        (lookupParentUuid (st.deleteTask task.uuid) bu createResp.parent_remote_id)) =
      { st.deleteTask task.uuid with
        tasks := (st.deleteTask task.uuid).tasks ++
          [localTaskFromBackend fresh bu createResp pm.uuid
            (lookup_section_uuid (st.deleteTask task.uuid) bu createResp.section_remote_id)
            (lookupParentUuid (st.deleteTask task.uuid) bu createResp.parent_remote_id)] } := by
    rw [Storage.upsertTask,
      if_neg (by simp only [localTaskFromBackend, Bool.not_eq_true]; exact hanyf)]
  have hstore : (restore_task st bu id createResp fresh task_id).store =
      { st.deleteTask task.uuid with
        tasks := (st.deleteTask task.uuid).tasks ++
          [localTaskFromBackend fresh bu createResp pm.uuid
            (lookup_section_uuid (st.deleteTask task.uuid) bu createResp.section_remote_id)
            (lookupParentUuid (st.deleteTask task.uuid) bu createResp.parent_remote_id)] } := by
    simp only [restore_task, h1, hdel, id_eq, hpr, hpar, hl, if_true]
    exact hups
  refine ⟨?_, ?_, ?_, ?_, ?_, ?_⟩
  · simp only [restore_task, h1, hdel, id_eq, hpr, hpar, hl, if_true]
  · simp only [restore_task, h1, hdel, id_eq, hpr, hpar, hl, if_true]
  · intro h
    rw [h]
    rfl
  · rw [hstore]
    simp only [Storage.getTask]
    rw [List.find?_append]
    have hleft : (st.deleteTask task.uuid).tasks.find? (fun t => t.uuid == task_id) = none := by
      apply List.find?_eq_none.mpr
      intro x hx
      rcases hdelmem x hx with ⟨_, hx2⟩
      simp [hx2]
    rw [hleft]
    simp [localTaskFromBackend, Ne.symm hfreshne]
  · refine ⟨localTaskFromBackend fresh bu createResp pm.uuid
      (lookup_section_uuid (st.deleteTask task.uuid) bu createResp.section_remote_id)
      (lookupParentUuid (st.deleteTask task.uuid) bu createResp.parent_remote_id),
      ?_, rfl, rfl⟩
    rw [hstore]
    simp only [Storage.getTask]
    rw [List.find?_append]
    have hleft : (st.deleteTask task.uuid).tasks.find? (fun t => t.uuid == fresh) = none := by
      apply List.find?_eq_none.mpr
      intro x hx
      rcases hdelmem x hx with ⟨hx1, _⟩
      simp [hfresh x hx1]
    rw [hleft]
    simp [localTaskFromBackend]
  · rw [hstore]
    simp only [List.filter_append]
    have hleft : (st.deleteTask task.uuid).tasks.filter (fun t => t.uuid == fresh) = [] := by
      apply List.filter_eq_nil_iff.mpr
      intro x hx
      rcases hdelmem x hx with ⟨hx1, _⟩
      simp [hfresh x hx1]
    rw [hleft]
    simp [localTaskFromBackend]

/-- Witness for C4 on a soft-deleted sample task recreated as remote id
`t2` under fresh local id 9. -/
theorem c4_restore_deleted_task_recreates_witness :
    ({ projects := [sampleProject 1 0 "p1" false], sections := [],
       tasks := [{ sampleTask 2 0 "t1" 1 with is_deleted := true }] } : Storage).getTask 2 =
      some { sampleTask 2 0 "t1" 1 with is_deleted := true } ∧
    ({ sampleTask 2 0 "t1" 1 with is_deleted := true } : Task).is_deleted = true ∧
    (restore_task
      { projects := [sampleProject 1 0 "p1" false], sections := [],
        tasks := [{ sampleTask 2 0 "t1" 1 with is_deleted := true }] } 0 id
      (sampleResp "t2" "p1") 9 2).store.getTask 2 = none ∧
    (∃ nt : Task,
      (restore_task
        { projects := [sampleProject 1 0 "p1" false], sections := [],
          tasks := [{ sampleTask 2 0 "t1" 1 with is_deleted := true }] } 0 id
        (sampleResp "t2" "p1") 9 2).store.getTask 9 = some nt ∧
      nt.is_deleted = false ∧ nt.uuid = 9) := by
  have H := c4_restore_deleted_task_recreates
    { projects := [sampleProject 1 0 "p1" false], sections := [],
      tasks := [{ sampleTask 2 0 "t1" 1 with is_deleted := true }] } 0
    (sampleResp "t2" "p1") 9 2 { sampleTask 2 0 "t1" 1 with is_deleted := true }
    "p1" none (sampleProject 1 0 "p1" false) rfl rfl rfl rfl rfl
    (by decide) (by decide)
  exact ⟨rfl, rfl, H.2.2.2.1, H.2.2.2.2.1⟩

end Terminalist
